import Mathlib

/-!
Verification development for the WarpX electromagnetic field-update and
mesh-consistency core: the fine-to-coarse restriction operator
(`InterpolateDensityFineToCoarse`), the Cartesian nodal finite-difference
derivative stencils (`CartesianNodalAlgorithm`), the RZ PSATD spectral
coefficient initialization (`PsatdAlgorithmRZ`), and the guard-cell planner
(`guardCellManager`).  Real-valued field data is modelled over `ℚ` where the
code is pure arithmetic (so statements are decidable on concrete inputs) and
over `ℝ` where the code uses transcendental functions.
-/

/-! ## Data model: AMReX `Array4`

An `Array4` is a 3-D (plus component) view of real data with inclusive lower
bounds and exclusive upper bounds per spatial axis; `contains` tests whether a
spatial index lies inside the view (`AMReX_Array4.H`). -/

structure Array4Q where
  lo1 : ℤ
  lo2 : ℤ
  lo3 : ℤ
  hi1 : ℤ
  hi2 : ℤ
  hi3 : ℤ
  data : ℤ → ℤ → ℤ → ℤ → ℚ

/-- `Array4::contains(j,k,l)`: the spatial index is inside the view's bounds. -/
def Array4Q.containsB (a : Array4Q) (j k l : ℤ) : Bool :=
  decide (a.lo1 ≤ j) && decide (j < a.hi1) &&
  decide (a.lo2 ≤ k) && decide (k < a.hi2) &&
  decide (a.lo3 ≤ l) && decide (l < a.hi3)

/-! ## RestrictionOperator: `InterpolateDensityFineToCoarse`
(`Source/Parallelization/InterpolateDensityFineToCoarse.H`) -/

/-- The bounds-guarded fine accessor built inside `operator()` (lines 66-69),
returning zero for reads outside the patch bounds. -/
def fineRead (fine_raw : Array4Q) (j k l m : ℤ) : ℚ :=
  if fine_raw.containsB j k l then fine_raw.data j k l m else 0

/-- The per-cell, per-component restriction value written by `operator()` in
the `AMREX_SPACEDIM == 3` branch (lines 88-109), with
`ii = i*ratio`, `jj = j*ratio`, `kk = k*ratio`. -/
def interpolateValue3D (fine : Array4Q) (refinement_ratio : ℤ)
    (i j k m : ℤ) : ℚ :=
  let ii := i * refinement_ratio
  let jj := j * refinement_ratio
  let kk := k * refinement_ratio
  (1/8) * (
    fineRead fine ii jj kk m +
    (1/2) * (
      fineRead fine (ii-1) jj kk m + fineRead fine (ii+1) jj kk m +
      fineRead fine ii (jj-1) kk m + fineRead fine ii (jj+1) kk m +
      fineRead fine ii jj (kk-1) m + fineRead fine ii jj (kk+1) m
    ) +
    (1/4) * (
      fineRead fine (ii-1) (jj-1) kk m + fineRead fine (ii+1) (jj-1) kk m +
      fineRead fine (ii-1) (jj+1) kk m + fineRead fine (ii+1) (jj+1) kk m +
      fineRead fine (ii-1) jj (kk-1) m + fineRead fine (ii+1) jj (kk-1) m +
      fineRead fine (ii-1) jj (kk+1) m + fineRead fine (ii+1) jj (kk+1) m +
      fineRead fine ii (jj-1) (kk-1) m + fineRead fine ii (jj+1) (kk-1) m +
      fineRead fine ii (jj-1) (kk+1) m + fineRead fine ii (jj+1) (kk+1) m
    ) +
    (1/8) * (
      fineRead fine (ii-1) (jj-1) (kk-1) m + fineRead fine (ii-1) (jj-1) (kk+1) m +
      fineRead fine (ii-1) (jj+1) (kk-1) m + fineRead fine (ii-1) (jj+1) (kk+1) m +
      fineRead fine (ii+1) (jj-1) (kk-1) m + fineRead fine (ii+1) (jj-1) (kk+1) m +
      fineRead fine (ii+1) (jj+1) (kk-1) m + fineRead fine (ii+1) (jj+1) (kk+1) m
    )
  )

/-- The per-cell, per-component restriction value written by `operator()` in
the `AMREX_SPACEDIM == 2` branch (lines 76-86). -/
def interpolateValue2D (fine : Array4Q) (refinement_ratio : ℤ)
    (i j k m : ℤ) : ℚ :=
  let ii := i * refinement_ratio
  let jj := j * refinement_ratio
  let kk := k * refinement_ratio
  (1/4) * (
    fineRead fine ii jj kk m +
    (1/2) * (
      fineRead fine (ii-1) jj kk m + fineRead fine (ii+1) jj kk m +
      fineRead fine ii (jj-1) kk m + fineRead fine ii (jj+1) kk m
    ) +
    (1/4) * (
      fineRead fine (ii-1) (jj-1) kk m + fineRead fine (ii+1) (jj-1) kk m +
      fineRead fine (ii-1) (jj+1) kk m + fineRead fine (ii+1) (jj+1) kk m
    )
  )

/-- The functor state: read-only fine patch, writable coarse patch (modelled
as an index-to-value map, updated by explicit state passing), refinement
ratio and component count. -/
structure InterpolateDensityFineToCoarse where
  m_fine : Array4Q
  m_coarse : ℤ → ℤ → ℤ → ℤ → ℚ
  m_refinement_ratio : ℤ
  m_number_of_components : ℕ

/-- The constructor together with its `BL_ASSERT(refinement_ratio == 2)`:
an assertion failure is modelled as `none`. -/
def mkInterpolateDensityFineToCoarse (fine : Array4Q)
    (coarse : ℤ → ℤ → ℤ → ℤ → ℚ)
    (refinement_ratio : ℤ) (number_of_components : ℕ) :
    Option InterpolateDensityFineToCoarse :=
  if refinement_ratio = 2 then
    some ⟨fine, coarse, refinement_ratio, number_of_components⟩
  else
    none

/-- A single array store `coarse(i,j,k,m) = v`. -/
def writeCell (c : ℤ → ℤ → ℤ → ℤ → ℚ) (i j k m : ℤ) (v : ℚ) :
    ℤ → ℤ → ℤ → ℤ → ℚ :=
  fun i' j' k' m' => if i' = i ∧ j' = j ∧ k' = k ∧ m' = m then v else c i' j' k' m'

/-- `operator()(i,j,k)` in the 3-D branch: the component loop
`for m = 0 .. n-1: coarse(i,j,k,m) = ...` as a fold of stores. -/
def applyAt3D (op : InterpolateDensityFineToCoarse) (i j k : ℤ) :
    InterpolateDensityFineToCoarse :=
  let c' := (List.range op.m_number_of_components).foldl
    (fun c (m : ℕ) => writeCell c i j k (m : ℤ)
      (interpolateValue3D op.m_fine op.m_refinement_ratio i j k (m : ℤ)))
    op.m_coarse
  { op with m_coarse := c' }

/-- `operator()(i,j,k)` in the 2-D branch: note the store targets
`coarse(i,j,kk,m)` with `kk = k*ratio`, exactly as in the source (line 76). -/
def applyAt2D (op : InterpolateDensityFineToCoarse) (i j k : ℤ) :
    InterpolateDensityFineToCoarse :=
  let c' := (List.range op.m_number_of_components).foldl
    (fun c (m : ℕ) => writeCell c i j (k * op.m_refinement_ratio) (m : ℤ)
      (interpolateValue2D op.m_fine op.m_refinement_ratio i j k (m : ℤ)))
    op.m_coarse
  { op with m_coarse := c' }

/-! ## DerivativeStencil: `CartesianNodalAlgorithm`
(`Source/FieldSolver/FiniteDifferenceSolver/FiniteDifferenceAlgorithms/CartesianNodalAlgorithm.H`)

A field array is modelled as `ℤ → ℤ → ℤ → ℚ`; a coefficient table as a
`List ℚ` whose element `0` is read by the derivative kernels (the raw
`coefs[0]` access is modelled by `List.headD` with default `0`).  The
`WARPX_DIM_3D` and `WARPX_DIM_XZ` preprocessor branches become separate
`3D`/`2D` definitions. -/

/-- `InitializeStencilCoefficients`: store the inverse cell size along each
direction as the single coefficient per axis (lines 23-38). -/
def InitializeStencilCoefficients (cell_size : ℚ × ℚ × ℚ) :
    List ℚ × List ℚ × List ℚ :=
  ([1 / cell_size.1], [1 / cell_size.2.1], [1 / cell_size.2.2])

/-- `UpwardDx` (lines 44-53). -/
def UpwardDx (F : ℤ → ℤ → ℤ → ℚ) (coefs_x : List ℚ) (n_coefs_x : ℕ)
    (i j k : ℤ) : ℚ :=
  let inv_dx := coefs_x.headD 0
  (1/2) * inv_dx * (F (i+1) j k - F (i-1) j k)

/-- `DownwardDx` (lines 59-67): forwards to `UpwardDx`. -/
def DownwardDx (F : ℤ → ℤ → ℤ → ℚ) (coefs_x : List ℚ) (n_coefs_x : ℕ)
    (i j k : ℤ) : ℚ :=
  UpwardDx F coefs_x n_coefs_x i j k

/-- `UpwardDy`, `WARPX_DIM_3D` branch (lines 80-82). -/
def UpwardDy3D (F : ℤ → ℤ → ℤ → ℚ) (coefs_y : List ℚ) (n_coefs_y : ℕ)
    (i j k : ℤ) : ℚ :=
  let inv_dy := coefs_y.headD 0
  (1/2) * inv_dy * (F i (j+1) k - F i (j-1) k)

/-- `UpwardDy`, `WARPX_DIM_XZ` branch (line 84): 2-D Cartesian, the
derivative along y is 0. -/
def UpwardDy2D (F : ℤ → ℤ → ℤ → ℚ) (coefs_y : List ℚ) (n_coefs_y : ℕ)
    (i j k : ℤ) : ℚ :=
  0

/-- `DownwardDy`, 3-D branch (lines 92-100): forwards to `UpwardDy`. -/
def DownwardDy3D (F : ℤ → ℤ → ℤ → ℚ) (coefs_y : List ℚ) (n_coefs_y : ℕ)
    (i j k : ℤ) : ℚ :=
  UpwardDy3D F coefs_y n_coefs_y i j k

/-- `DownwardDy`, 2-D branch: forwards to `UpwardDy`. -/
def DownwardDy2D (F : ℤ → ℤ → ℤ → ℚ) (coefs_y : List ℚ) (n_coefs_y : ℕ)
    (i j k : ℤ) : ℚ :=
  UpwardDy2D F coefs_y n_coefs_y i j k

/-- `UpwardDz`, `WARPX_DIM_3D` branch (lines 107-115). -/
def UpwardDz3D (F : ℤ → ℤ → ℤ → ℚ) (coefs_z : List ℚ) (n_coefs_z : ℕ)
    (i j k : ℤ) : ℚ :=
  let inv_dz := coefs_z.headD 0
  (1/2) * inv_dz * (F i j (k+1) - F i j (k-1))

/-- `UpwardDz`, `WARPX_DIM_XZ` branch (line 117): z is the second index. -/
def UpwardDz2D (F : ℤ → ℤ → ℤ → ℚ) (coefs_z : List ℚ) (n_coefs_z : ℕ)
    (i j k : ℤ) : ℚ :=
  let inv_dz := coefs_z.headD 0
  (1/2) * inv_dz * (F i (j+1) k - F i (j-1) k)

/-- `DownwardDz`, 3-D branch (lines 126-133): forwards to `UpwardDz`. -/
def DownwardDz3D (F : ℤ → ℤ → ℤ → ℚ) (coefs_z : List ℚ) (n_coefs_z : ℕ)
    (i j k : ℤ) : ℚ :=
  UpwardDz3D F coefs_z n_coefs_z i j k

/-- `DownwardDz`, 2-D branch: forwards to `UpwardDz`. -/
def DownwardDz2D (F : ℤ → ℤ → ℤ → ℚ) (coefs_z : List ℚ) (n_coefs_z : ℕ)
    (i j k : ℤ) : ℚ :=
  UpwardDz2D F coefs_z n_coefs_z i j k

/-! ## SpectralFieldAlgorithm: `PsatdAlgorithmRZ`
(`Source/FieldSolver/SpectralSolver/SpectralAlgorithms/PsatdAlgorithmRZ.H`)

Only the class declaration is in the repository snapshot (the member
definitions live in a `.cpp` file that is not present), so the coefficient
initialization is modelled from the spec.  Values are over `ℝ` because the
coefficients are trigonometric. -/

/-- Speed of light, used in the spectral update coefficients. -/
noncomputable def c_light : ℝ := 299792458

/-- Spectral-space field data; its contents are irrelevant to the
coefficient-initialization state machine. -/
structure SpectralFieldDataRZ where
  fields : List ℝ

/-- The algorithm state declared in `PsatdAlgorithmRZ.H` (lines 31-35):
the `coefficients_initialized` flag, the saved `dt`, the modified wavenumber
vector inherited from `SpectralBaseAlgorithmRZ`, and the five coefficient
tables `C_coef, S_ck_coef, X1_coef, X2_coef, X3_coef`. -/
structure PsatdAlgorithmRZ where
  coefficients_initialized : Bool
  dt : ℝ
  modified_kz_vec : List ℝ
  C_coef : List ℝ
  S_ck_coef : List ℝ
  X1_coef : List ℝ
  X2_coef : List ℝ
  X3_coef : List ℝ

/-- The constructor: saves `dt`, stores the modified wavenumbers, and starts
in the `Uninitialized` state (`coefficients_initialized = false`). -/
def mkPsatdAlgorithmRZ (modified_kz : List ℝ) (dt_step : ℝ) : PsatdAlgorithmRZ :=
  { coefficients_initialized := false
    dt := dt_step
    modified_kz_vec := modified_kz
    C_coef := []
    S_ck_coef := []
    X1_coef := []
    X2_coef := []
    X3_coef := [] }

/-- Modelled from the spec: the body of
`PsatdAlgorithmRZ::InitializeSpectralCoefficients` is not under `src/` (only
its declaration is).  Per the spec, the transition `Uninitialized →
CoefficientsReady` computes per mode `C = cos(c·k·dt)`,
`S_ck = sin(c·k·dt)/(c·k)`, and source-term coefficients `X1, X2, X3`
derived from `C` and `S_ck` (the spec gives no closed form for the `X`
tables; they are modelled as explicit functions of `C`, `S_ck` and `dt`),
and re-entering after the first call is a no-op guarded by the internal
`coefficients_initialized` flag. -/
noncomputable def InitializeSpectralCoefficients (alg : PsatdAlgorithmRZ)
    (f : SpectralFieldDataRZ) : PsatdAlgorithmRZ :=
  if alg.coefficients_initialized then alg
  else
    let Cs := alg.modified_kz_vec.map (fun k => Real.cos (c_light * k * alg.dt))
    let Ss := alg.modified_kz_vec.map
      (fun k => Real.sin (c_light * k * alg.dt) / (c_light * k))
    let X1s := List.zipWith (fun c s => (1 - c) * s) Cs Ss
    let X2s := List.zipWith (fun c s => c * s) Cs Ss
    let X3s := List.zipWith (fun c s => c - s / alg.dt) Cs Ss
    { alg with
      C_coef := Cs
      S_ck_coef := Ss
      X1_coef := X1s
      X2_coef := X2s
      X3_coef := X3s
      coefficients_initialized := true }

/-! ## GuardCellPlanner: `guardCellManager`
(`Source/Parallelization/GuardCellManager.H`)

Only the class declaration is in the repository snapshot (the body of
`guardCellManager::Init` lives in a `.cpp` file that is not present), so the
planner is modelled from the spec: each width is the componentwise maximum
over all features that require halo data at that stage (finite-difference
order implies order/2 cells, spectral methods require the local-FFT overlap,
NCI correction / subcycling / moving window each add fixed increments), the
allocation widths dominate every exchange stage, values are never negative
(modelled with `ℕ`), and when `safe_guard_cells` is set the planner uses the
maximum supported width irrespective of which features are enabled. -/

/-- A guard-cell width vector: one non-negative count per spatial axis. -/
abbrev IntVect : Type := ℕ × ℕ × ℕ

/-- Componentwise maximum of two width vectors. -/
def vmax (a b : IntVect) : IntVect :=
  (max a.1 b.1, max a.2.1 b.2.1, max a.2.2 b.2.2)

/-- Componentwise comparison of two width vectors. -/
def vle (a b : IntVect) : Prop :=
  a.1 ≤ b.1 ∧ a.2.1 ≤ b.2.1 ∧ a.2.2 ≤ b.2.2

/-- The run-configuration inputs of `guardCellManager::Init` (header lines
37-50), plus the solver-kind flag the spec lists among the planner inputs
(in the C++ source it is the compile-time `WARPX_USE_PSATD` switch). -/
structure GuardCellOptions where
  do_subcycling : Bool
  do_fdtd_nci_corr : Bool
  do_nodal : Bool
  do_moving_window : Bool
  aux_is_nodal : Bool
  moving_window_dir : Fin 3
  nox : ℕ
  nox_fft : ℕ
  noy_fft : ℕ
  noz_fft : ℕ
  nci_corr_stencil : ℕ
  maxwell_fdtd_solver_id : ℕ
  max_level : ℕ
  v_galilean : ℚ × ℚ × ℚ
  solver_is_spectral : Bool
  safe_guard_cells : Bool

/-- Modelled from the spec: halo needed by the field solver stencil — the
second-order finite-difference Maxwell solver needs order/2 = 1 cell, a
spectral solver needs the local-FFT overlap (order/2 per axis). -/
def ng_solver (o : GuardCellOptions) : IntVect :=
  if o.solver_is_spectral then
    (o.nox_fft / 2, o.noy_fft / 2, o.noz_fft / 2)
  else
    (1, 1, 1)

/-- Modelled from the spec: halo needed by field gather / current
deposition of stencil order `nox` — `(nox+1)/2` cells per axis. -/
def ng_gather_req (o : GuardCellOptions) : IntVect :=
  ((o.nox + 1) / 2, (o.nox + 1) / 2, (o.nox + 1) / 2)

/-- Modelled from the spec: the NCI corrector adds its stencil width when
enabled. -/
def ng_nci (o : GuardCellOptions) : IntVect :=
  if o.do_fdtd_nci_corr then
    (o.nci_corr_stencil, o.nci_corr_stencil, o.nci_corr_stencil)
  else
    (0, 0, 0)

/-- Modelled from the spec: subcycling adds a fixed increment when
enabled. -/
def ng_sub (o : GuardCellOptions) : IntVect :=
  if o.do_subcycling then (4, 4, 4) else (0, 0, 0)

/-- Modelled from the spec: the moving window adds one cell along its
direction when enabled. -/
def ng_mw (o : GuardCellOptions) : IntVect :=
  if o.do_moving_window then
    (if o.moving_window_dir.val = 0 then 1 else 0,
     if o.moving_window_dir.val = 1 then 1 else 0,
     if o.moving_window_dir.val = 2 then 1 else 0)
  else
    (0, 0, 0)

/-- Modelled from the spec / header comment (lines 74-78): when the aux grid
is nodal but the solver is staggered, one extra guard cell is needed. -/
def ng_aux_extra (o : GuardCellOptions) : IntVect :=
  if o.aux_is_nodal && !o.do_nodal then (1, 1, 1) else (0, 0, 0)

/-- Exchange width before the field solve: maximum over the solver stencil,
the NCI corrector and the subcycling increment. -/
def ng_FieldSolver_req (o : GuardCellOptions) : IntVect :=
  vmax (ng_solver o) (vmax (ng_nci o) (ng_sub o))

/-- Exchange width for the auxiliary scalar field F before the field
solve. -/
def ng_FieldSolverF_req (o : GuardCellOptions) : IntVect :=
  ng_solver o

/-- Exchange width before the field gather. -/
def ng_FieldGather_req (o : GuardCellOptions) : IntVect :=
  vmax (ng_gather_req o) (ng_aux_extra o)

/-- Exchange width before the aux-grid update: at least what its downstream
gather requires. -/
def ng_UpdateAux_req (o : GuardCellOptions) : IntVect :=
  vmax (ng_FieldGather_req o) (ng_aux_extra o)

/-- Exchange width before shifting the moving window. -/
def ng_MovingWindow_req (o : GuardCellOptions) : IntVect :=
  ng_mw o

/-- Allocation width for the E/B arrays: dominates every exchange stage. -/
def ng_alloc_EB_req (o : GuardCellOptions) : IntVect :=
  vmax (ng_FieldSolver_req o)
    (vmax (ng_FieldGather_req o) (vmax (ng_UpdateAux_req o) (ng_MovingWindow_req o)))

/-- Allocation width for the J array. -/
def ng_alloc_J_req (o : GuardCellOptions) : IntVect :=
  vmax (ng_gather_req o) (ng_mw o)

/-- Allocation width for the Rho array. -/
def ng_alloc_Rho_req (o : GuardCellOptions) : IntVect :=
  vmax (ng_gather_req o) (ng_mw o)

/-- Allocation width for the F array. -/
def ng_alloc_F_req (o : GuardCellOptions) : IntVect :=
  vmax (ng_FieldSolverF_req o) (ng_mw o)

/-- Treat every optional feature as enabled — the configuration whose widths
are the maximum supported ones, "irrespective of enabled features". -/
def forceFeatures (o : GuardCellOptions) : GuardCellOptions :=
  { o with
    do_subcycling := true
    do_fdtd_nci_corr := true
    do_moving_window := true
    aux_is_nodal := true }

/-- The planner's outputs (header lines 52-78). -/
structure guardCellManager where
  ng_alloc_EB : IntVect
  ng_alloc_J : IntVect
  ng_alloc_Rho : IntVect
  ng_alloc_F : IntVect
  ng_FieldSolver : IntVect
  ng_FieldSolverF : IntVect
  ng_FieldGather : IntVect
  ng_UpdateAux : IntVect
  ng_MovingWindow : IntVect
  ng_Extra : IntVect

/-- Modelled from the spec: `guardCellManager::Init` — computes the stage
and allocation widths from the options; when `safe_guard_cells` is set it
evaluates the requirements with every feature enabled and uses the full
allocation widths for every exchange stage. -/
def guardCellManager.Init (o : GuardCellOptions) : guardCellManager :=
  if o.safe_guard_cells then
    let oo := forceFeatures o
    { ng_alloc_EB := ng_alloc_EB_req oo
      ng_alloc_J := ng_alloc_J_req oo
      ng_alloc_Rho := ng_alloc_Rho_req oo
      ng_alloc_F := ng_alloc_F_req oo
      ng_FieldSolver := ng_alloc_EB_req oo
      ng_FieldSolverF := ng_alloc_F_req oo
      ng_FieldGather := ng_alloc_EB_req oo
      ng_UpdateAux := ng_alloc_EB_req oo
      ng_MovingWindow := ng_alloc_EB_req oo
      ng_Extra := ng_aux_extra oo }
  else
    { ng_alloc_EB := ng_alloc_EB_req o
      ng_alloc_J := ng_alloc_J_req o
      ng_alloc_Rho := ng_alloc_Rho_req o
      ng_alloc_F := ng_alloc_F_req o
      ng_FieldSolver := ng_FieldSolver_req o
      ng_FieldSolverF := ng_FieldSolverF_req o
      ng_FieldGather := ng_FieldGather_req o
      ng_UpdateAux := ng_UpdateAux_req o
      ng_MovingWindow := ng_MovingWindow_req o
      ng_Extra := ng_aux_extra o }

/-! ## Theorems -/

/-- C5: For every field F, coefficient table, and index (i,j,k), and for each
of the three axes (in both the 3-D and the 2-D XZ build), the nodal
algorithm's downward derivative equals the upward derivative:
`DownwardDx = UpwardDx`, `DownwardDy = UpwardDy`, `DownwardDz = UpwardDz`. -/
theorem claim_C5_nodal_downward_eq_upward
    (F : ℤ → ℤ → ℤ → ℚ) (coefs : List ℚ) (n : ℕ) (i j k : ℤ) :
    DownwardDx F coefs n i j k = UpwardDx F coefs n i j k ∧
    DownwardDy3D F coefs n i j k = UpwardDy3D F coefs n i j k ∧
    DownwardDy2D F coefs n i j k = UpwardDy2D F coefs n i j k ∧
    DownwardDz3D F coefs n i j k = UpwardDz3D F coefs n i j k ∧
    DownwardDz2D F coefs n i j k = UpwardDz2D F coefs n i j k :=
  ⟨rfl, rfl, rfl, rfl, rfl⟩

/-- The delta field of the C4 end-to-end scenario: 1 at the interior cell
(5,5,5) and 0 elsewhere. -/
def deltaField : ℤ → ℤ → ℤ → ℚ :=
  fun a b c => if a = 5 ∧ b = 5 ∧ c = 5 then 1 else 0

/-- C4: with the coefficient table produced by
`InitializeStencilCoefficients` (the single value 1/Δx per axis), the nodal
upward derivative along x equals the central difference
`(F(i+1,j,k) - F(i-1,j,k)) / (2Δx)` for every field and index; the
derivative along y in the 2-D XZ configuration is identically zero; and for
Δx = 1/1000 and a field that is 1 at the interior cell (5,5,5) and 0
elsewhere, the derivative along x is 0 at that cell and ±(1/(2Δx)) = ±500 at
its x-neighbors. -/
theorem claim_C4_nodal_central_difference :
    (∀ (cell_size : ℚ × ℚ × ℚ) (F : ℤ → ℤ → ℤ → ℚ) (i j k : ℤ),
      UpwardDx F (InitializeStencilCoefficients cell_size).1 1 i j k
        = (F (i+1) j k - F (i-1) j k) / (2 * cell_size.1)) ∧
    (∀ (F : ℤ → ℤ → ℤ → ℚ) (coefs : List ℚ) (n : ℕ) (i j k : ℤ),
      UpwardDy2D F coefs n i j k = 0) ∧
    (UpwardDx deltaField
        (InitializeStencilCoefficients (1/1000, 1/1000, 1/1000)).1 1 5 5 5 = 0 ∧
     UpwardDx deltaField
        (InitializeStencilCoefficients (1/1000, 1/1000, 1/1000)).1 1 4 5 5
        = 1 / (2 * (1/1000)) ∧
     UpwardDx deltaField
        (InitializeStencilCoefficients (1/1000, 1/1000, 1/1000)).1 1 6 5 5
        = -(1 / (2 * (1/1000)))) := by
  refine ⟨?_, fun _ _ _ _ _ _ => rfl, ?_, ?_, ?_⟩
  · intro cs F i j k
    simp only [UpwardDx, InitializeStencilCoefficients, List.headD]
    rcases eq_or_ne cs.1 0 with h | h
    · simp [h]
    · field_simp
  · norm_num [UpwardDx, InitializeStencilCoefficients, deltaField]
  · norm_num [UpwardDx, InitializeStencilCoefficients, deltaField]
  · norm_num [UpwardDx, InitializeStencilCoefficients, deltaField]

/-- C3: calling `InitializeSpectralCoefficients` a second time after a first
call is a no-op guarded by the `coefficients_initialized` flag: the
coefficient tables C, S_ck, X1, X2, X3 are unchanged by the second call even
if the stored `dt` or the field-data argument differ, and a second call with
the same inputs returns the state unchanged (idempotence). -/
theorem claim_C3_second_initialization_noop
    (alg : PsatdAlgorithmRZ) (f f' : SpectralFieldDataRZ) (dt' : ℝ) :
    ((InitializeSpectralCoefficients
        { InitializeSpectralCoefficients alg f with dt := dt' } f').C_coef
      = (InitializeSpectralCoefficients alg f).C_coef ∧
     (InitializeSpectralCoefficients
        { InitializeSpectralCoefficients alg f with dt := dt' } f').S_ck_coef
      = (InitializeSpectralCoefficients alg f).S_ck_coef ∧
     (InitializeSpectralCoefficients
        { InitializeSpectralCoefficients alg f with dt := dt' } f').X1_coef
      = (InitializeSpectralCoefficients alg f).X1_coef ∧
     (InitializeSpectralCoefficients
        { InitializeSpectralCoefficients alg f with dt := dt' } f').X2_coef
      = (InitializeSpectralCoefficients alg f).X2_coef ∧
     (InitializeSpectralCoefficients
        { InitializeSpectralCoefficients alg f with dt := dt' } f').X3_coef
      = (InitializeSpectralCoefficients alg f).X3_coef) ∧
    InitializeSpectralCoefficients (InitializeSpectralCoefficients alg f) f'
      = InitializeSpectralCoefficients alg f := by
  have hflag : (InitializeSpectralCoefficients alg f).coefficients_initialized = true := by
    unfold InitializeSpectralCoefficients
    split <;> simp_all
  constructor
  · have h2 : (InitializeSpectralCoefficients
        { InitializeSpectralCoefficients alg f with dt := dt' } f')
        = { InitializeSpectralCoefficients alg f with dt := dt' } := by
      unfold InitializeSpectralCoefficients
      simp [hflag]
      split <;> simp_all
    rw [h2]
    exact ⟨rfl, rfl, rfl, rfl, rfl⟩
  · unfold InitializeSpectralCoefficients
    split <;> simp_all

/-- The component loop of `operator()` written out: the fold of stores
updates exactly the cells `(i,j,k,m)` with `0 ≤ m < n` to the supplied
per-component value and leaves every other cell of `c0` unchanged. -/
lemma foldl_writeCell_apply (i j k : ℤ) (g : ℕ → ℚ) (n : ℕ)
    (c0 : ℤ → ℤ → ℤ → ℤ → ℚ) (i' j' k' m' : ℤ) :
    ((List.range n).foldl (fun c (m : ℕ) => writeCell c i j k (m : ℤ) (g m)) c0)
        i' j' k' m'
      = if i' = i ∧ j' = j ∧ k' = k ∧ 0 ≤ m' ∧ m' < (n : ℤ) then g m'.toNat
        else c0 i' j' k' m' := by
  induction n with
  | zero =>
    rw [List.range_zero, List.foldl_nil,
      if_neg (by rintro ⟨-, -, -, h4, h5⟩; omega)]
  | succ n ih =>
    rw [List.range_succ, List.foldl_append, List.foldl_cons, List.foldl_nil]
    rw [writeCell]
    by_cases hm : i' = i ∧ j' = j ∧ k' = k ∧ m' = (n : ℤ)
    · rw [if_pos hm]
      obtain ⟨h1, h2, h3, h4⟩ := hm
      have hn : m'.toNat = n := by omega
      rw [if_pos ⟨h1, h2, h3, by omega, by omega⟩, hn]
    · rw [if_neg hm, ih]
      by_cases hc : i' = i ∧ j' = j ∧ k' = k ∧ 0 ≤ m' ∧ m' < (n : ℤ)
      · rw [if_pos hc, if_pos ⟨hc.1, hc.2.1, hc.2.2.1, hc.2.2.2.1, by omega⟩]
      · rw [if_neg hc, if_neg (by push_neg at hm hc ⊢; intro h1 h2 h3 h4; omega)]

/-- C8: under the precondition `refinement_ratio = 2` the constructor's
assertion `BL_ASSERT(refinement_ratio == 2)` holds — construction succeeds
(the failure branch is unreachable) — and the per-cell kernel of the
constructed object is total: at every coarse index it unconditionally writes
the ratio-2 stencil value for every component, with no runtime ratio check
in the hot path. -/
theorem claim_C8_ratio_two_precondition
    (fine : Array4Q) (coarse : ℤ → ℤ → ℤ → ℤ → ℚ)
    (ratio : ℤ) (n : ℕ) (h : ratio = 2) :
    mkInterpolateDensityFineToCoarse fine coarse ratio n
      = some ⟨fine, coarse, ratio, n⟩ ∧
    ∀ i j k m' : ℤ, 0 ≤ m' → m' < n →
      (applyAt3D ⟨fine, coarse, ratio, n⟩ i j k).m_coarse i j k m'
        = interpolateValue3D fine 2 i j k m' := by
  constructor
  · rw [mkInterpolateDensityFineToCoarse, if_pos h]
  · intro i j k m' h0 hn
    simp only [applyAt3D]
    rw [foldl_writeCell_apply, if_pos ⟨rfl, rfl, rfl, h0, hn⟩]
    have hcast : ((m'.toNat : ℕ) : ℤ) = m' := by omega
    rw [hcast, h]

/-- The 3-D restriction stencil is a convex combination: if every
(zero-padded) fine read in the 27-cell footprint lies in `[L, U]` with
`L ≤ 0 ≤ U`, the stencil value lies in `[L, U]`. -/
lemma interpolateValue3D_bounds (fine : Array4Q) (r i j k m : ℤ) (L U : ℚ)
    (hL : L ≤ 0) (hU : 0 ≤ U)
    (hb : ∀ di dj dk : ℤ, di.natAbs ≤ 1 → dj.natAbs ≤ 1 → dk.natAbs ≤ 1 →
      L ≤ fineRead fine (i*r + di) (j*r + dj) (k*r + dk) m ∧
      fineRead fine (i*r + di) (j*r + dj) (k*r + dk) m ≤ U) :
    L ≤ interpolateValue3D fine r i j k m ∧
    interpolateValue3D fine r i j k m ≤ U := by
  obtain ⟨a1, b1⟩ := hb 0 0 0 (by decide) (by decide) (by decide)
  obtain ⟨a2, b2⟩ := hb (-1) 0 0 (by decide) (by decide) (by decide)
  obtain ⟨a3, b3⟩ := hb 1 0 0 (by decide) (by decide) (by decide)
  obtain ⟨a4, b4⟩ := hb 0 (-1) 0 (by decide) (by decide) (by decide)
  obtain ⟨a5, b5⟩ := hb 0 1 0 (by decide) (by decide) (by decide)
  obtain ⟨a6, b6⟩ := hb 0 0 (-1) (by decide) (by decide) (by decide)
  obtain ⟨a7, b7⟩ := hb 0 0 1 (by decide) (by decide) (by decide)
  obtain ⟨a8, b8⟩ := hb (-1) (-1) 0 (by decide) (by decide) (by decide)
  obtain ⟨a9, b9⟩ := hb 1 (-1) 0 (by decide) (by decide) (by decide)
  obtain ⟨a10, b10⟩ := hb (-1) 1 0 (by decide) (by decide) (by decide)
  obtain ⟨a11, b11⟩ := hb 1 1 0 (by decide) (by decide) (by decide)
  obtain ⟨a12, b12⟩ := hb (-1) 0 (-1) (by decide) (by decide) (by decide)
  obtain ⟨a13, b13⟩ := hb 1 0 (-1) (by decide) (by decide) (by decide)
  obtain ⟨a14, b14⟩ := hb (-1) 0 1 (by decide) (by decide) (by decide)
  obtain ⟨a15, b15⟩ := hb 1 0 1 (by decide) (by decide) (by decide)
  obtain ⟨a16, b16⟩ := hb 0 (-1) (-1) (by decide) (by decide) (by decide)
  obtain ⟨a17, b17⟩ := hb 0 1 (-1) (by decide) (by decide) (by decide)
  obtain ⟨a18, b18⟩ := hb 0 (-1) 1 (by decide) (by decide) (by decide)
  obtain ⟨a19, b19⟩ := hb 0 1 1 (by decide) (by decide) (by decide)
  obtain ⟨a20, b20⟩ := hb (-1) (-1) (-1) (by decide) (by decide) (by decide)
  obtain ⟨a21, b21⟩ := hb (-1) (-1) 1 (by decide) (by decide) (by decide)
  obtain ⟨a22, b22⟩ := hb (-1) 1 (-1) (by decide) (by decide) (by decide)
  obtain ⟨a23, b23⟩ := hb (-1) 1 1 (by decide) (by decide) (by decide)
  obtain ⟨a24, b24⟩ := hb 1 (-1) (-1) (by decide) (by decide) (by decide)
  obtain ⟨a25, b25⟩ := hb 1 (-1) 1 (by decide) (by decide) (by decide)
  obtain ⟨a26, b26⟩ := hb 1 1 (-1) (by decide) (by decide) (by decide)
  obtain ⟨a27, b27⟩ := hb 1 1 1 (by decide) (by decide) (by decide)
  clear hb
  simp only [add_zero, ← sub_eq_add_neg] at *
  simp only [interpolateValue3D]
  constructor <;> linarith

/-- C9: the restriction kernel's output is a convex combination of the
(zero-padded) fine reads in its 27-cell footprint: whenever `L ≤ 0 ≤ U` and
every footprint read lies in `[L, U]` — in particular for
`L = min(0, m)` and `U = max(0, M)` with `m`, `M` the extreme fine values
over the footprint — the written value lies in `[L, U]`; and its absolute
value never exceeds a bound on the absolute values of the footprint
reads. -/
theorem claim_C9_output_convex_bounds (fine : Array4Q) (r i j k m : ℤ) :
    (∀ L U : ℚ, L ≤ 0 → 0 ≤ U →
      (∀ di dj dk : ℤ, di.natAbs ≤ 1 → dj.natAbs ≤ 1 → dk.natAbs ≤ 1 →
        L ≤ fineRead fine (i*r + di) (j*r + dj) (k*r + dk) m ∧
        fineRead fine (i*r + di) (j*r + dj) (k*r + dk) m ≤ U) →
      L ≤ interpolateValue3D fine r i j k m ∧
      interpolateValue3D fine r i j k m ≤ U) ∧
    (∀ B : ℚ,
      (∀ di dj dk : ℤ, di.natAbs ≤ 1 → dj.natAbs ≤ 1 → dk.natAbs ≤ 1 →
        |fineRead fine (i*r + di) (j*r + dj) (k*r + dk) m| ≤ B) →
      |interpolateValue3D fine r i j k m| ≤ B) := by
  constructor
  · intro L U hL hU hb
    exact interpolateValue3D_bounds fine r i j k m L U hL hU hb
  · intro B habs
    have hB : 0 ≤ B :=
      le_trans (abs_nonneg _) (habs 0 0 0 (by decide) (by decide) (by decide))
    have h := interpolateValue3D_bounds fine r i j k m (-B) B (by linarith) hB
      (fun di dj dk h1 h2 h3 => abs_le.mp (habs di dj dk h1 h2 h3))
    exact abs_le.mpr h

/-- A fine patch over `[0,4)³` holding the constant value 3; used to witness
C9. -/
def fineW9 : Array4Q := ⟨0, 0, 0, 4, 4, 4, fun _ _ _ _ => 3⟩

theorem claim_C9_output_convex_bounds_witness :
    ((0 : ℚ) ≤ interpolateValue3D fineW9 2 1 1 1 0 ∧
     interpolateValue3D fineW9 2 1 1 1 0 ≤ 3) ∧
    |interpolateValue3D fineW9 2 1 1 1 0| ≤ 3 := by
  have h := claim_C9_output_convex_bounds fineW9 2 1 1 1 0
  constructor
  · exact h.1 0 3 le_rfl (by norm_num)
      (fun di dj dk _ _ _ => by
        rw [fineRead]
        split
        · exact ⟨by norm_num [fineW9], by norm_num [fineW9]⟩
        · exact ⟨le_rfl, by norm_num⟩)
  · exact h.2 3
      (fun di dj dk _ _ _ => by
        rw [fineRead]
        split
        · norm_num [fineW9]
        · norm_num)

/-- C2: for a spatially constant fine field of value v and refinement ratio
2, a coarse cell whose whole 27-cell fine footprint lies inside the patch
receives exactly v; and for non-negative v every coarse cell (in particular
boundary cells, where reads outside the patch contribute zero) receives a
value ≤ v. -/
theorem claim_C2_constant_field_restriction (fine : Array4Q) (v : ℚ)
    (i j k m : ℤ) (hconst : ∀ a b c mm : ℤ, fine.data a b c mm = v) :
    ((∀ a b c : ℤ, (a - i*2).natAbs ≤ 1 → (b - j*2).natAbs ≤ 1 →
        (c - k*2).natAbs ≤ 1 → fine.containsB a b c = true) →
      interpolateValue3D fine 2 i j k m = v) ∧
    (0 ≤ v → interpolateValue3D fine 2 i j k m ≤ v) := by
  constructor
  · intro hin
    have hr : ∀ a b c : ℤ, (a - i*2).natAbs ≤ 1 → (b - j*2).natAbs ≤ 1 →
        (c - k*2).natAbs ≤ 1 → fineRead fine a b c m = v := by
      intro a b c h1 h2 h3
      rw [fineRead, hin a b c h1 h2 h3]
      · exact hconst a b c m
    simp only [interpolateValue3D]
    simp (disch := omega) only [hr]
    ring
  · intro hv
    refine (interpolateValue3D_bounds fine 2 i j k m 0 v le_rfl hv ?_).2
    intro di dj dk _ _ _
    rw [fineRead]
    split
    · rw [hconst]
      exact ⟨hv, le_rfl⟩
    · exact ⟨le_rfl, hv⟩

/-- A fine patch over `[0,8)³` holding the constant value 5; used to witness
C2 (coarse cell (1,1,1) is interior, coarse cell (0,0,0) touches the patch
boundary). -/
def fineW2 : Array4Q := ⟨0, 0, 0, 8, 8, 8, fun _ _ _ _ => 5⟩

theorem claim_C2_constant_field_restriction_witness :
    interpolateValue3D fineW2 2 1 1 1 0 = 5 ∧
    interpolateValue3D fineW2 2 0 0 0 0 ≤ 5 := by
  constructor
  · refine (claim_C2_constant_field_restriction fineW2 5 1 1 1 0
      (fun _ _ _ _ => rfl)).1 ?_
    intro a b c h1 h2 h3
    simp only [Array4Q.containsB, fineW2, Bool.and_eq_true, decide_eq_true_eq]
    omega
  · exact (claim_C2_constant_field_restriction fineW2 5 0 0 0 0
      (fun _ _ _ _ => rfl)).2 (by norm_num)

/-- The fine patch holding the pointwise linear combination `α·F1 + β·F2`,
on the footprint/bounds of `F1`. -/
def linComb (α β : ℚ) (F1 F2 : Array4Q) : Array4Q :=
  { F1 with data := fun a b c mm => α * F1.data a b c mm + β * F2.data a b c mm }

/-- Zero-padded reads are linear when the two patches have equal shape
(the padding value 0 is itself linear). -/
lemma fineRead_linComb (α β : ℚ) (F1 F2 : Array4Q)
    (h1 : F2.lo1 = F1.lo1) (h2 : F2.lo2 = F1.lo2) (h3 : F2.lo3 = F1.lo3)
    (h4 : F2.hi1 = F1.hi1) (h5 : F2.hi2 = F1.hi2) (h6 : F2.hi3 = F1.hi3)
    (a b c mm : ℤ) :
    fineRead (linComb α β F1 F2) a b c mm
      = α * fineRead F1 a b c mm + β * fineRead F2 a b c mm := by
  have hc2 : F2.containsB a b c = F1.containsB a b c := by
    simp [Array4Q.containsB, h1, h2, h3, h4, h5, h6]
  have hcc : (linComb α β F1 F2).containsB a b c = F1.containsB a b c := by
    simp [Array4Q.containsB, linComb]
  rw [fineRead, fineRead, fineRead, hcc, hc2]
  rcases Bool.eq_false_or_eq_true (F1.containsB a b c) with h | h
  · simp [h, linComb]
  · simp [h, linComb]

/-- C6: the restriction operator is linear — restricting `α·F1 + β·F2`
(patches of equal shape) gives, at every coarse cell and component,
`α` times the restriction of `F1` plus `β` times the restriction of `F2`,
in both the 3-D and the 2-D branch. -/
theorem claim_C6_restriction_linear (α β : ℚ) (F1 F2 : Array4Q)
    (h1 : F2.lo1 = F1.lo1) (h2 : F2.lo2 = F1.lo2) (h3 : F2.lo3 = F1.lo3)
    (h4 : F2.hi1 = F1.hi1) (h5 : F2.hi2 = F1.hi2) (h6 : F2.hi3 = F1.hi3)
    (r i j k m : ℤ) :
    interpolateValue3D (linComb α β F1 F2) r i j k m
      = α * interpolateValue3D F1 r i j k m
        + β * interpolateValue3D F2 r i j k m ∧
    interpolateValue2D (linComb α β F1 F2) r i j k m
      = α * interpolateValue2D F1 r i j k m
        + β * interpolateValue2D F2 r i j k m := by
  constructor
  · simp only [interpolateValue3D, fineRead_linComb α β F1 F2 h1 h2 h3 h4 h5 h6]
    ring
  · simp only [interpolateValue2D, fineRead_linComb α β F1 F2 h1 h2 h3 h4 h5 h6]
    ring

/-- First witness patch for C6: value `a + 2b + c` at cell (a,b,c). -/
def fineW6a : Array4Q := ⟨0, 0, 0, 3, 3, 3, fun a b c _ => (a : ℚ) + 2*b + c⟩

/-- Second witness patch for C6: constant 1, same shape as `fineW6a`. -/
def fineW6b : Array4Q := ⟨0, 0, 0, 3, 3, 3, fun _ _ _ _ => 1⟩

theorem claim_C6_restriction_linear_witness :
    (fineW6b.lo1 = fineW6a.lo1 ∧ fineW6b.hi1 = fineW6a.hi1) ∧
    interpolateValue3D (linComb 2 3 fineW6a fineW6b) 2 0 0 0 0
      = 2 * interpolateValue3D fineW6a 2 0 0 0 0
        + 3 * interpolateValue3D fineW6b 2 0 0 0 0 :=
  ⟨⟨rfl, rfl⟩,
   (claim_C6_restriction_linear 2 3 fineW6a fineW6b
      rfl rfl rfl rfl rfl rfl 2 0 0 0 0).1⟩

/-- Fine patch for the C1 counterexample: the indicator of the fine cell
(1,0,0) — a first-shell (face) neighbor of the fine cell (0,0,0) centered
under coarse cell (0,0,0) at ratio 2. -/
def fineC1 : Array4Q :=
  ⟨0, 0, 0, 4, 4, 4, fun a b c _ => if a = 1 ∧ b = 0 ∧ c = 0 then 1 else 0⟩

/-- C1 (counterexample): in 3-D (d = 3) the weight the restriction kernel
gives to a first-neighbor-shell fine cell is `2^(-(d+1)) = 1/16` — the
restriction of the indicator of a face neighbor is 1/16 — and not
`2^(-d+1) = 2^(-2) = 1/4` as the claim literally states. -/
theorem claim_C1_counterexample :
    interpolateValue3D fineC1 2 0 0 0 0 = (1/2 : ℚ)^(3+1) ∧
    ((1/2 : ℚ)^(3+1) ≠ (1/2 : ℚ)^2) := by
  constructor
  · norm_num [interpolateValue3D, fineRead, Array4Q.containsB, fineC1]
  · norm_num

/-- Sums over the offset set {-1, 0, 1} written out. -/
lemma sum_m101 (f : ℤ → ℚ) :
    (∑ x ∈ ({-1, 0, 1} : Finset ℤ), f x) = f (-1) + f 0 + f 1 := by
  rw [show ({-1, 0, 1} : Finset ℤ) = insert (-1) (insert 0 {1}) from rfl]
  rw [Finset.sum_insert (by decide), Finset.sum_insert (by decide),
    Finset.sum_singleton]
  ring

/-- C1 (amended): for every coarse cell the restriction kernel computes the
weighted sum of the 3^d (zero-padded) fine reads centered at the nearest
fine cell, with binomial weight `2^(-(d+s))` for a neighbor at offset of
L1-distance `s` — so the centered cell has weight `2^(-d)`, the first
neighbor shell `2^(-(d+1))`, each further shell halving — for d = 3 and
d = 2. -/
theorem claim_C1_amended_binomial_weights (fine : Array4Q) (r i j k m : ℤ) :
    interpolateValue3D fine r i j k m
      = (∑ di ∈ ({-1, 0, 1} : Finset ℤ), ∑ dj ∈ ({-1, 0, 1} : Finset ℤ),
          ∑ dk ∈ ({-1, 0, 1} : Finset ℤ),
            (1/2 : ℚ)^(3 + di.natAbs + dj.natAbs + dk.natAbs) *
              fineRead fine (i*r + di) (j*r + dj) (k*r + dk) m) ∧
    interpolateValue2D fine r i j k m
      = (∑ di ∈ ({-1, 0, 1} : Finset ℤ), ∑ dj ∈ ({-1, 0, 1} : Finset ℤ),
          (1/2 : ℚ)^(2 + di.natAbs + dj.natAbs) *
            fineRead fine (i*r + di) (j*r + dj) (k*r) m) := by
  constructor
  · simp only [sum_m101]
    simp only [Int.natAbs_neg, Int.natAbs_one, Int.natAbs_zero,
      add_zero, ← sub_eq_add_neg]
    simp only [interpolateValue3D]
    norm_num
    ring
  · simp only [sum_m101]
    simp only [Int.natAbs_neg, Int.natAbs_one, Int.natAbs_zero,
      add_zero, ← sub_eq_add_neg]
    simp only [interpolateValue2D]
    norm_num
    ring

/-- C10: an invocation of the 3-D restriction kernel at coarse index
(i,j,k) leaves the fine patch, the ratio and the component count untouched;
it writes only the coarse cells (i,j,k,m) for components 0 ≤ m < n, leaving
every other coarse cell unchanged; the values it writes are the stencil of
the fine patch alone (it never reads the coarse array); and invocations at
distinct output cells commute — they are independent. -/
theorem claim_C10_kernel_frame (op : InterpolateDensityFineToCoarse)
    (i j k : ℤ) :
    ((applyAt3D op i j k).m_fine = op.m_fine ∧
     (applyAt3D op i j k).m_refinement_ratio = op.m_refinement_ratio ∧
     (applyAt3D op i j k).m_number_of_components
        = op.m_number_of_components) ∧
    (∀ i' j' k' m' : ℤ,
      ¬(i' = i ∧ j' = j ∧ k' = k ∧ 0 ≤ m' ∧
          m' < (op.m_number_of_components : ℤ)) →
      (applyAt3D op i j k).m_coarse i' j' k' m' = op.m_coarse i' j' k' m') ∧
    (∀ m' : ℤ, 0 ≤ m' → m' < (op.m_number_of_components : ℤ) →
      (applyAt3D op i j k).m_coarse i j k m'
        = interpolateValue3D op.m_fine op.m_refinement_ratio i j k m') ∧
    (∀ i2 j2 k2 : ℤ, ¬(i2 = i ∧ j2 = j ∧ k2 = k) →
      (applyAt3D (applyAt3D op i j k) i2 j2 k2).m_coarse
        = (applyAt3D (applyAt3D op i2 j2 k2) i j k).m_coarse) := by
  refine ⟨⟨rfl, rfl, rfl⟩, ?_, ?_, ?_⟩
  · intro i' j' k' m' hnot
    simp only [applyAt3D]
    rw [foldl_writeCell_apply, if_neg hnot]
  · intro m' h0 hn
    simp only [applyAt3D]
    rw [foldl_writeCell_apply, if_pos ⟨rfl, rfl, rfl, h0, hn⟩]
    have hcast : ((m'.toNat : ℕ) : ℤ) = m' := by omega
    rw [hcast]
  · intro i2 j2 k2 hne
    funext i' j' k' m'
    simp only [applyAt3D]
    rw [foldl_writeCell_apply, foldl_writeCell_apply,
      foldl_writeCell_apply, foldl_writeCell_apply]
    by_cases hA1 : i' = i ∧ j' = j ∧ k' = k ∧ 0 ≤ m' ∧
        m' < (op.m_number_of_components : ℤ)
    · have hA2 : ¬(i' = i2 ∧ j' = j2 ∧ k' = k2 ∧ 0 ≤ m' ∧
          m' < (op.m_number_of_components : ℤ)) := fun hA2 =>
        hne ⟨hA2.1.symm.trans hA1.1, hA2.2.1.symm.trans hA1.2.1,
          hA2.2.2.1.symm.trans hA1.2.2.1⟩
      rw [if_neg hA2, if_pos hA1, if_pos hA1]
    · by_cases hA2 : i' = i2 ∧ j' = j2 ∧ k' = k2 ∧ 0 ≤ m' ∧
          m' < (op.m_number_of_components : ℤ)
      · rw [if_pos hA2, if_pos hA2, if_neg hA1]
      · rw [if_neg hA2, if_neg hA2]

/-- Operator state used to witness C10. -/
def opW10 : InterpolateDensityFineToCoarse :=
  ⟨fineC1, fun _ _ _ _ => 7, 2, 1⟩

theorem claim_C10_kernel_frame_witness :
    (applyAt3D opW10 0 0 0).m_coarse 5 0 0 0 = opW10.m_coarse 5 0 0 0 ∧
    (applyAt3D opW10 0 0 0).m_coarse 0 0 0 0
      = interpolateValue3D opW10.m_fine opW10.m_refinement_ratio 0 0 0 0 ∧
    (applyAt3D (applyAt3D opW10 0 0 0) 1 1 1).m_coarse
      = (applyAt3D (applyAt3D opW10 1 1 1) 0 0 0).m_coarse := by
  have h := claim_C10_kernel_frame opW10 0 0 0
  exact ⟨h.2.1 5 0 0 0 (by rintro ⟨h5, -⟩; norm_num at h5),
    h.2.2.1 0 le_rfl (by norm_num [opW10]),
    h.2.2.2 1 1 1 (by rintro ⟨h1, -⟩; norm_num at h1)⟩

/-! ### Guard-cell planner lemmas -/

lemma vle_vmax_left (a b : IntVect) : vle a (vmax a b) := by
  exact ⟨Nat.le_max_left _ _, Nat.le_max_left _ _, Nat.le_max_left _ _⟩

lemma vle_vmax_right (a b : IntVect) : vle b (vmax a b) := by
  exact ⟨Nat.le_max_right _ _, Nat.le_max_right _ _, Nat.le_max_right _ _⟩

lemma vle_trans {a b c : IntVect} (h1 : vle a b) (h2 : vle b c) : vle a c :=
  ⟨le_trans h1.1 h2.1, le_trans h1.2.1 h2.2.1, le_trans h1.2.2 h2.2.2⟩

lemma vmax_mono {a a' b b' : IntVect} (h1 : vle a a') (h2 : vle b b') :
    vle (vmax a b) (vmax a' b') :=
  ⟨max_le_max h1.1 h2.1, max_le_max h1.2.1 h2.2.1, max_le_max h1.2.2 h2.2.2⟩

lemma vle_refl (a : IntVect) : vle a a := ⟨le_rfl, le_rfl, le_rfl⟩

/-- Enabling all features leaves the solver-stencil requirement unchanged. -/
lemma ng_solver_force (o : GuardCellOptions) :
    ng_solver (forceFeatures o) = ng_solver o := rfl

/-- Enabling all features leaves the gather requirement unchanged. -/
lemma ng_gather_req_force (o : GuardCellOptions) :
    ng_gather_req (forceFeatures o) = ng_gather_req o := rfl

lemma ng_nci_force (o : GuardCellOptions) :
    vle (ng_nci o) (ng_nci (forceFeatures o)) := by
  cases hc : o.do_fdtd_nci_corr <;>
    simp [ng_nci, forceFeatures, hc, vle]

lemma ng_sub_force (o : GuardCellOptions) :
    vle (ng_sub o) (ng_sub (forceFeatures o)) := by
  cases hc : o.do_subcycling <;>
    simp [ng_sub, forceFeatures, hc, vle]

lemma ng_mw_force (o : GuardCellOptions) :
    vle (ng_mw o) (ng_mw (forceFeatures o)) := by
  cases hc : o.do_moving_window <;>
    simp [ng_mw, forceFeatures, hc, vle]

lemma ng_aux_extra_force (o : GuardCellOptions) :
    vle (ng_aux_extra o) (ng_aux_extra (forceFeatures o)) := by
  cases ha : o.aux_is_nodal <;> cases hn : o.do_nodal <;>
    simp [ng_aux_extra, forceFeatures, ha, hn, vle]

lemma ng_FieldSolver_req_force (o : GuardCellOptions) :
    vle (ng_FieldSolver_req o) (ng_FieldSolver_req (forceFeatures o)) := by
  unfold ng_FieldSolver_req
  rw [ng_solver_force]
  exact vmax_mono (vle_refl _) (vmax_mono (ng_nci_force o) (ng_sub_force o))

lemma ng_FieldSolverF_req_force (o : GuardCellOptions) :
    vle (ng_FieldSolverF_req o) (ng_FieldSolverF_req (forceFeatures o)) := by
  unfold ng_FieldSolverF_req
  rw [ng_solver_force]
  exact vle_refl _

lemma ng_FieldGather_req_force (o : GuardCellOptions) :
    vle (ng_FieldGather_req o) (ng_FieldGather_req (forceFeatures o)) := by
  unfold ng_FieldGather_req
  rw [ng_gather_req_force]
  exact vmax_mono (vle_refl _) (ng_aux_extra_force o)

lemma ng_UpdateAux_req_force (o : GuardCellOptions) :
    vle (ng_UpdateAux_req o) (ng_UpdateAux_req (forceFeatures o)) := by
  unfold ng_UpdateAux_req
  exact vmax_mono (ng_FieldGather_req_force o) (ng_aux_extra_force o)

lemma ng_MovingWindow_req_force (o : GuardCellOptions) :
    vle (ng_MovingWindow_req o) (ng_MovingWindow_req (forceFeatures o)) :=
  ng_mw_force o

lemma ng_alloc_EB_req_force (o : GuardCellOptions) :
    vle (ng_alloc_EB_req o) (ng_alloc_EB_req (forceFeatures o)) := by
  unfold ng_alloc_EB_req
  exact vmax_mono (ng_FieldSolver_req_force o)
    (vmax_mono (ng_FieldGather_req_force o)
      (vmax_mono (ng_UpdateAux_req_force o) (ng_MovingWindow_req_force o)))

lemma ng_alloc_J_req_force (o : GuardCellOptions) :
    vle (ng_alloc_J_req o) (ng_alloc_J_req (forceFeatures o)) := by
  unfold ng_alloc_J_req
  rw [ng_gather_req_force]
  exact vmax_mono (vle_refl _) (ng_mw_force o)

lemma ng_alloc_Rho_req_force (o : GuardCellOptions) :
    vle (ng_alloc_Rho_req o) (ng_alloc_Rho_req (forceFeatures o)) := by
  unfold ng_alloc_Rho_req
  rw [ng_gather_req_force]
  exact vmax_mono (vle_refl _) (ng_mw_force o)

lemma ng_alloc_F_req_force (o : GuardCellOptions) :
    vle (ng_alloc_F_req o) (ng_alloc_F_req (forceFeatures o)) := by
  unfold ng_alloc_F_req
  exact vmax_mono (ng_FieldSolverF_req_force o) (ng_mw_force o)

/-- Every exchange stage's requirement is dominated by the E/B allocation
width. -/
lemma stage_le_alloc_EB (o : GuardCellOptions) :
    vle (ng_FieldSolver_req o) (ng_alloc_EB_req o) ∧
    vle (ng_FieldGather_req o) (ng_alloc_EB_req o) ∧
    vle (ng_UpdateAux_req o) (ng_alloc_EB_req o) ∧
    vle (ng_MovingWindow_req o) (ng_alloc_EB_req o) := by
  unfold ng_alloc_EB_req
  refine ⟨vle_vmax_left _ _, ?_, ?_, ?_⟩
  · exact vle_trans (vle_vmax_left _ _) (vle_vmax_right _ _)
  · exact vle_trans (vle_trans (vle_vmax_left _ _) (vle_vmax_right _ _))
      (vle_vmax_right _ _)
  · exact vle_trans (vle_trans (vle_vmax_right _ _) (vle_vmax_right _ _))
      (vle_vmax_right _ _)

/-- C7: for any fixed configuration of the other planner inputs, every
component of every output width vector of `guardCellManager.Init` with
`safe_guard_cells = true` is ≥ the corresponding component with
`safe_guard_cells = false`. -/
theorem claim_C7_safe_guard_cells_dominate (o : GuardCellOptions) :
    vle (guardCellManager.Init { o with safe_guard_cells := false }).ng_alloc_EB
        (guardCellManager.Init { o with safe_guard_cells := true }).ng_alloc_EB ∧
    vle (guardCellManager.Init { o with safe_guard_cells := false }).ng_alloc_J
        (guardCellManager.Init { o with safe_guard_cells := true }).ng_alloc_J ∧
    vle (guardCellManager.Init { o with safe_guard_cells := false }).ng_alloc_Rho
        (guardCellManager.Init { o with safe_guard_cells := true }).ng_alloc_Rho ∧
    vle (guardCellManager.Init { o with safe_guard_cells := false }).ng_alloc_F
        (guardCellManager.Init { o with safe_guard_cells := true }).ng_alloc_F ∧
    vle (guardCellManager.Init { o with safe_guard_cells := false }).ng_FieldSolver
        (guardCellManager.Init { o with safe_guard_cells := true }).ng_FieldSolver ∧
    vle (guardCellManager.Init { o with safe_guard_cells := false }).ng_FieldSolverF
        (guardCellManager.Init { o with safe_guard_cells := true }).ng_FieldSolverF ∧
    vle (guardCellManager.Init { o with safe_guard_cells := false }).ng_FieldGather
        (guardCellManager.Init { o with safe_guard_cells := true }).ng_FieldGather ∧
    vle (guardCellManager.Init { o with safe_guard_cells := false }).ng_UpdateAux
        (guardCellManager.Init { o with safe_guard_cells := true }).ng_UpdateAux ∧
    vle (guardCellManager.Init { o with safe_guard_cells := false }).ng_MovingWindow
        (guardCellManager.Init { o with safe_guard_cells := true }).ng_MovingWindow ∧
    vle (guardCellManager.Init { o with safe_guard_cells := false }).ng_Extra
        (guardCellManager.Init { o with safe_guard_cells := true }).ng_Extra := by
  simp only [guardCellManager.Init, if_true, if_false]
  refine ⟨ng_alloc_EB_req_force o, ng_alloc_J_req_force o,
    ng_alloc_Rho_req_force o, ng_alloc_F_req_force o, ?_, ?_, ?_, ?_, ?_,
    ng_aux_extra_force o⟩
  · exact vle_trans (ng_FieldSolver_req_force o)
      ((stage_le_alloc_EB (forceFeatures o)).1)
  · exact vle_trans (ng_FieldSolverF_req_force o)
      (by unfold ng_alloc_F_req; exact vle_vmax_left _ _)
  · exact vle_trans (ng_FieldGather_req_force o)
      ((stage_le_alloc_EB (forceFeatures o)).2.1)
  · exact vle_trans (ng_UpdateAux_req_force o)
      ((stage_le_alloc_EB (forceFeatures o)).2.2.1)
  · exact vle_trans (ng_MovingWindow_req_force o)
      ((stage_le_alloc_EB (forceFeatures o)).2.2.2)

/-- Zero-initialized coarse array used to witness C8. -/
def coarseW8 : ℤ → ℤ → ℤ → ℤ → ℚ := fun _ _ _ _ => 0

theorem claim_C8_ratio_two_precondition_witness :
    (2 : ℤ) = 2 ∧
    mkInterpolateDensityFineToCoarse fineC1 coarseW8 2 1
      = some ⟨fineC1, coarseW8, 2, 1⟩ ∧
    (applyAt3D ⟨fineC1, coarseW8, 2, 1⟩ 0 0 0).m_coarse 0 0 0 0
      = interpolateValue3D fineC1 2 0 0 0 0 := by
  have h := claim_C8_ratio_two_precondition fineC1 coarseW8 2 1 rfl
  exact ⟨rfl, h.1, h.2 0 0 0 0 le_rfl (by norm_num)⟩
